import Mathlib

/-!
Shallow embedding of the image-classification service
(`app/services/image_detection/image_detection.py`), covering:

* `ImageDetectionService.classify_image`: the single-image classification
  call with its retry / backoff loop, 4xx short-circuit and error recording;
* `ImageDetectionService.classify_batch` with its inner `classify_single`:
  bounded-concurrency batch dispatch that tags each outcome with its input
  index and converts per-item exceptions into failure records;
* the `asyncio.Semaphore(max_concurrent)` admission discipline used by
  `classify_batch`, modelled as a small-step transition system.

The network is modelled as an environment `env : Nat → AttemptOutcome`
giving, for each attempt index, what the single HTTP POST of that attempt
produced (a response with a status, body text and parsed candidate list, a
timeout, or a transport-level request error).  Exceptions are modelled by
their message strings, exactly as the Python code builds them, since the
code only ever raises bare `Exception(msg)` and inspects `str(e)`.
-/

namespace ImageDetection

/-! ## String helpers mirroring Python primitives -/

/-- Check that `needle` is a prefix of `hay` (over character lists). -/
def startsWithList : List Char → List Char → Bool
  | [], _ => true
  | _ :: _, [] => false
  | a :: as, b :: bs => a == b && startsWithList as bs

/-- Check that `needle` occurs contiguously somewhere in `hay`. -/
def containsList (needle : List Char) : List Char → Bool
  | [] => startsWithList needle []
  | b :: bs => startsWithList needle (b :: bs) || containsList needle bs

/-- Python's `needle in hay` substring test on strings. -/
def strContains (hay needle : String) : Bool :=
  containsList needle.toList hay.toList

/-- ASCII whitespace stripped by Python's `str.strip()` (the Unicode
whitespace code points beyond ASCII are not modelled; none of the fixed
strings in the program contain them). -/
def isPyWhitespace (c : Char) : Bool :=
  c == ' ' || c == '\t' || c == '\n' || c == '\r' || c == '\x0b' || c == '\x0c'

/-- Python's `str.strip()`: drop leading and trailing whitespace. -/
def pyStrip (s : String) : String :=
  String.mk (((s.toList.dropWhile isPyWhitespace).reverse.dropWhile
      isPyWhitespace).reverse)

/-! ## Base64 (`base64.b64encode(image_data).decode("utf-8")`) -/

/-- The standard base64 alphabet. -/
def b64Alphabet : List Char :=
  "ABCDEFGHIJKLMNOPQRSTUVWXYZabcdefghijklmnopqrstuvwxyz0123456789+/".toList

/-- Character for a 6-bit group. -/
def b64Char (n : Nat) : Char := b64Alphabet.getD n 'A'

/-- RFC 4648 base64 encoding of a byte list (bytes as `Nat` < 256),
with `=` padding, exactly as `base64.b64encode` produces. -/
def b64encode : List Nat → List Char
  | [] => []
  | [a] =>
    [b64Char (a / 4), b64Char (a % 4 * 16), '=', '=']
  | [a, b] =>
    [b64Char (a / 4), b64Char (a % 4 * 16 + b / 16), b64Char (b % 16 * 4), '=']
  | a :: b :: c :: rest =>
    b64Char (a / 4) :: b64Char (a % 4 * 16 + b / 16) ::
      b64Char (b % 16 * 4 + c / 64) :: b64Char (c % 64) :: b64encode rest

/-- Base64 encoding as a string. -/
def b64encodeStr (bytes : List Nat) : String := String.mk (b64encode bytes)

/-! ## Data model of one HTTP attempt -/

/-- What the single HTTP POST of one attempt produced, as seen by the
`try` block of `classify_image`.  A `response` carries the HTTP status,
the body text (`response.text`) and the parsed `"choices"` field of the
JSON body: `none` when the field is absent, otherwise the list of the
candidates' `message.content` strings.  `timeout` is an
`httpx.TimeoutException`; `requestError` an `httpx.RequestError` with its
stringified message. -/
inductive AttemptOutcome where
  | response (status : Nat) (text : String) (choices : Option (List String))
  | timeout
  | requestError (msg : String)

/-- How one loop iteration of `classify_image` ends, other than by the
final `raise`: `success` returns the classification; `failBreak` records
the exception and executes `break` (the `"400"/"401"/"403"` substring
short-circuit); `continueNoSleep` is the 5xx/unknown-status path that
records the error and executes `continue` (skipping the backoff sleep);
`failSleep` records the exception and falls through to the backoff
sleep at the bottom of the loop body. -/
inductive AttemptStep where
  | success (text : String)
  | failBreak (msg : String)
  | continueNoSleep (msg : String)
  | failSleep (msg : String)
deriving DecidableEq

/-- The message of the exception `f"API error {status}: {text}"`. -/
def error_msg (status : Nat) (text : String) : String :=
  "API error " ++ toString status ++ ": " ++ text

/-- Python's `"400" in str(e) or "401" in str(e) or "403" in str(e)`. -/
def hasClientDigits (msg : String) : Bool :=
  strContains msg "400" || strContains msg "401" || strContains msg "403"

/-- The `except Exception as e` handler (lines 172-177): record the
exception, and `break` iff the stringified error contains one of the
digit strings `"400"`, `"401"`, `"403"`. -/
def genericCatch (msg : String) : AttemptStep :=
  if hasClientDigits msg then .failBreak msg else .failSleep msg

/-- One iteration of the `try`/`except` body of `classify_image` on the
outcome the environment supplies for this attempt.  `timeoutText` is the
rendering of `self.timeout` used in the timeout message. -/
def attemptStep (timeoutText : String) : AttemptOutcome → AttemptStep
  | .response status text choices =>
    if status ≠ 200 then
      -- lines 137-147: build the error message; 4xx raises (caught by the
      -- generic handler), everything else records and `continue`s
      if 400 ≤ status ∧ status < 500 then genericCatch (error_msg status text)
      else .continueNoSleep (error_msg status text)
    else
      -- lines 150-162: parse the body and extract the classification
      match choices with
      | none => genericCatch "Invalid response format from API"
      | some [] => genericCatch "Invalid response format from API"
      | some (c :: _) =>
        if pyStrip c = "" then genericCatch "Empty classification result"
        else .success (pyStrip c)
  | .timeout => .failSleep ("Request timeout after " ++ timeoutText ++ "s")
  | .requestError e => .failSleep ("Request error: " ++ e)

/-- The generic message raised when the loop ends with nothing recorded. -/
def exhaustedMsg : String := "Classification failed after all retries"

deriving instance DecidableEq for Except

/-- Observable result of a `classify_image` run: the returned string or
the message of the raised exception, the number of attempts performed,
and the chronological list of backoff sleep durations (seconds). -/
structure RunResult where
  result : Except String String
  attempts : Nat
  sleeps : List Nat
deriving DecidableEq

/-- The `for attempt in range(retry_count)` loop of `classify_image`
(lines 125-185).  `fuel` is the number of remaining iterations (the top
call uses `fuel = retryCount`, `attempt = 0`); `lastExc` is
`last_exception`.  Each branch follows the source: success returns;
the digit short-circuit `break`s and then raises `last_exception`; the
non-4xx non-200 path `continue`s (skipping the sleep); the exception
handlers fall through to `if attempt < retry_count - 1: sleep(2**attempt)`.
When the loop ends, `raise last_exception or Exception(...)`. -/
def classifyLoop (timeoutText : String) (env : Nat → AttemptOutcome)
    (retryCount : Nat) : Nat → Nat → Option String → RunResult
  | 0, attempt, lastExc => ⟨.error (lastExc.getD exhaustedMsg), attempt, []⟩
  | fuel + 1, attempt, _lastExc =>
    match attemptStep timeoutText (env attempt) with
    | .success t => ⟨.ok t, attempt + 1, []⟩
    | .failBreak m => ⟨.error m, attempt + 1, []⟩
    | .continueNoSleep m =>
      classifyLoop timeoutText env retryCount fuel (attempt + 1) (some m)
    | .failSleep m =>
      let r := classifyLoop timeoutText env retryCount fuel (attempt + 1) (some m)
      if attempt < retryCount - 1 then ⟨r.result, r.attempts, 2 ^ attempt :: r.sleeps⟩
      else r

/-- The fixed instruction text of `_prepare_payload`. -/
def fixedPrompt : String :=
  "What is this image? Give me a brief, clear identification of the main object or subject in this image. Just tell me what it is in 1-3 words if possible. Be specific and accurate."

/-- `settings.DEFAULT_MODEL`. -/
def defaultModel : String := "qwen/qwen2.5-vl-32b-instruct:free"

/-- The JSON payload built by `_prepare_payload`: model name, the fixed
text part, the data-URL image part, `max_tokens`, `temperature` (a Python
float, modelled as an exact rational since the program never computes
with it), `stream: false`. -/
structure Payload where
  model : String
  promptText : String
  imageUrl : String
  maxTokens : Nat
  temperature : ℚ
  stream : Bool
deriving DecidableEq

/-- `_prepare_payload(image_base64, max_tokens, temperature)`. -/
def prepare_payload (image_base64 : String) (maxTokens : Nat)
    (temperature : ℚ) : Payload :=
  ⟨defaultModel, fixedPrompt, "data:image/jpeg;base64," ++ image_base64,
    maxTokens, temperature, false⟩

/-- Observable behaviour of one `classify_image` call: the payload that
was built and sent (`none` when the call raised before building it), the
returned value or raised message, attempts made, and backoff sleeps. -/
structure ClassifyRun where
  payload : Option Payload
  result : Except String String
  attempts : Nat
  sleeps : List Nat
deriving DecidableEq

/-- `ImageDetectionService.classify_image(image_data, max_tokens,
temperature, retry_count)`.  `apiKey` and `timeoutText` are the service
fields `self.api_key` and the rendering of `self.timeout`; `env` supplies
the outcome of each attempt's HTTP POST.  The missing-key check (line
108) fires before the image is encoded or any payload is built. -/
def classify_image (apiKey timeoutText : String) (env : Nat → AttemptOutcome)
    (imageData : List Nat) (maxTokens : Nat) (temperature : ℚ)
    (retryCount : Nat) : ClassifyRun :=
  if apiKey = "" then
    ⟨none, .error "OpenRouter API key not configured", 0, []⟩
  else
    let image_base64 := b64encodeStr imageData
    let payload := prepare_payload image_base64 maxTokens temperature
    let r := classifyLoop timeoutText env retryCount retryCount 0 none
    ⟨some payload, r.result, r.attempts, r.sleeps⟩

/-- One entry of the list returned by `classify_batch`: the dict
`{"index": i, "success": ..., "classification"/"error": ...}`. -/
structure BatchItem where
  index : Nat
  success : Bool
  classification : Option String
  error : Option String
deriving DecidableEq

/-- The inner coroutine `classify_single(image_data, index)` of
`classify_batch`: run `classify_image` with its default arguments
(`max_tokens=50`, `temperature=0.1`, `retry_count=3`) and convert any
exception into a failure record for this index.  `envFor i` is the
attempt environment seen by the task of input index `i`. -/
def classify_single (apiKey timeoutText : String)
    (envFor : Nat → Nat → AttemptOutcome) (imageData : List Nat)
    (index : Nat) : BatchItem :=
  match (classify_image apiKey timeoutText (envFor index) imageData
      50 (1 / 10 : ℚ) 3).result with
  | .ok t => ⟨index, true, some t, none⟩
  | .error e => ⟨index, false, none, some e⟩

/-- `ImageDetectionService.classify_batch(images_data, max_concurrent)`:
one `classify_single` task per input image, tagged with its position by
`enumerate`; `asyncio.gather` returns the task results in the order the
tasks were created, regardless of completion order. -/
def classify_batch (apiKey timeoutText : String)
    (envFor : Nat → Nat → AttemptOutcome)
    (imagesData : List (List Nat)) : List BatchItem :=
  imagesData.enum.map (fun p => classify_single apiKey timeoutText envFor p.2 p.1)

/-! ## Admission gate (`asyncio.Semaphore(max_concurrent)`)

`classify_batch` wraps every `classify_image` call in
`async with semaphore:` — the semaphore slot is acquired before the call
starts and released when the `async with` block exits, whether the block
returned normally or through the `except` branch.  The discipline is
modelled as a transition system over the phases of the batch's tasks. -/

/-- Phase of one batch task with respect to the admission gate:
not yet admitted, holding a slot with its call in flight, or finished
(its slot released — on success or on failure alike). -/
inductive TaskPhase where
  | waiting
  | running
  | finished
deriving DecidableEq

/-- Number of classification calls currently in flight. -/
def inflight (s : List TaskPhase) : Nat :=
  s.countP (fun p => decide (p = TaskPhase.running))

/-- One scheduler step under a semaphore of capacity `k`: a waiting task
may acquire a slot only when fewer than `k` calls are in flight; a
running task releases its slot unconditionally when its call ends,
successfully or not. -/
inductive SemStep (k : Nat) : List TaskPhase → List TaskPhase → Prop where
  | acquire (s : List TaskPhase) (i : Nat)
      (hw : s[i]? = some TaskPhase.waiting) (hk : inflight s < k) :
      SemStep k s (s.set i TaskPhase.running)
  | release (s : List TaskPhase) (i : Nat)
      (hr : s[i]? = some TaskPhase.running) :
      SemStep k s (s.set i TaskPhase.finished)

/-- States reachable from the start of a batch of `n` tasks (all waiting)
by scheduler steps. -/
inductive SemReachable (k : Nat) : List TaskPhase → Prop where
  | init (n : Nat) : SemReachable k (List.replicate n TaskPhase.waiting)
  | step {s t : List TaskPhase} :
      SemReachable k s → SemStep k s t → SemReachable k t

/-! ## Auxiliary predicates on attempt steps -/

/-- Steps that the retry loop treats as transient: the recorded failure
paths that do not `break` (5xx `continue` and the exception handlers
without the digit short-circuit). -/
def isTransient : AttemptStep → Bool
  | .continueNoSleep _ => true
  | .failSleep _ => true
  | _ => false

/-- The message recorded into `last_exception` by a failing step. -/
def stepMsg : AttemptStep → String
  | .success _ => ""
  | .failBreak m => m
  | .continueNoSleep m => m
  | .failSleep m => m

/-! ## Helper lemmas about the retry loop -/

theorem loop_attempts_ge (tt : String) (env : Nat → AttemptOutcome) (rc : Nat) :
    ∀ fuel attempt le, attempt ≤ (classifyLoop tt env rc fuel attempt le).attempts := by
  intro fuel
  induction fuel with
  | zero => intro a le; simp [classifyLoop]
  | succ f ih =>
    intro a le
    cases h : attemptStep tt (env a) with
    | success t => simp [classifyLoop, h]
    | failBreak m => simp [classifyLoop, h]
    | continueNoSleep m =>
      simp only [classifyLoop, h]
      exact le_trans (Nat.le_succ a) (ih (a + 1) (some m))
    | failSleep m =>
      simp only [classifyLoop, h]
      split
      · exact le_trans (Nat.le_succ a) (ih (a + 1) (some m))
      · exact le_trans (Nat.le_succ a) (ih (a + 1) (some m))

theorem loop_attempts_ge_succ (tt : String) (env : Nat → AttemptOutcome)
    (rc fuel attempt : Nat) (le : Option String) (hf : 0 < fuel) :
    attempt + 1 ≤ (classifyLoop tt env rc fuel attempt le).attempts := by
  obtain ⟨f, rfl⟩ : ∃ f, fuel = f + 1 := ⟨fuel - 1, by omega⟩
  cases h : attemptStep tt (env attempt) with
  | success t => simp [classifyLoop, h]
  | failBreak m => simp [classifyLoop, h]
  | continueNoSleep m =>
    simp only [classifyLoop, h]
    exact loop_attempts_ge tt env rc f (attempt + 1) (some m)
  | failSleep m =>
    simp only [classifyLoop, h]
    split
    · exact loop_attempts_ge tt env rc f (attempt + 1) (some m)
    · exact loop_attempts_ge tt env rc f (attempt + 1) (some m)

theorem genericCatch_ne_success (m s : String) : genericCatch m ≠ .success s := by
  unfold genericCatch
  split <;> simp

theorem genericCatch_eq_failBreak (m : String) :
    genericCatch m = .failBreak m ↔ hasClientDigits m = true := by
  unfold genericCatch
  split <;> simp_all

theorem attemptStep_success_ne (tt : String) (o : AttemptOutcome) (s : String)
    (h : attemptStep tt o = .success s) : s ≠ "" := by
  cases o with
  | timeout => simp [attemptStep] at h
  | requestError e => simp [attemptStep] at h
  | response status text choices =>
    simp only [attemptStep] at h
    split at h
    · split at h
      · exact absurd h (genericCatch_ne_success _ _)
      · simp at h
    · cases choices with
      | none => exact absurd h (genericCatch_ne_success _ _)
      | some cs =>
        cases cs with
        | nil => exact absurd h (genericCatch_ne_success _ _)
        | cons c rest =>
          have h' : (if pyStrip c = "" then genericCatch "Empty classification result"
              else AttemptStep.success (pyStrip c)) = AttemptStep.success s := h
          by_cases hc : pyStrip c = ""
          · rw [if_pos hc] at h'
            exact absurd h' (genericCatch_ne_success _ _)
          · rw [if_neg hc] at h'
            cases h'
            exact hc

theorem loop_ok_ne_empty (tt : String) (env : Nat → AttemptOutcome) (rc : Nat) :
    ∀ fuel attempt le s,
      (classifyLoop tt env rc fuel attempt le).result = .ok s → s ≠ "" := by
  intro fuel
  induction fuel with
  | zero => intro a le s h; simp [classifyLoop] at h
  | succ f ih =>
    intro a le s h
    cases hs : attemptStep tt (env a) with
    | success t =>
      simp only [classifyLoop, hs] at h
      cases h
      exact attemptStep_success_ne tt (env a) s hs
    | failBreak m => simp [classifyLoop, hs] at h
    | continueNoSleep m =>
      exact ih (a + 1) (some m) s (by simpa [classifyLoop, hs] using h)
    | failSleep m =>
      simp only [classifyLoop, hs] at h
      split at h
      · exact ih (a + 1) (some m) s h
      · exact ih (a + 1) (some m) s h

theorem loop_all_transient (tt : String) (env : Nat → AttemptOutcome) (rc : Nat) :
    ∀ fuel attempt le, fuel + attempt = rc →
      (∀ i, attempt ≤ i → i < rc → isTransient (attemptStep tt (env i)) = true) →
      (classifyLoop tt env rc fuel attempt le).result =
        .error (if fuel = 0 then le.getD exhaustedMsg
                else stepMsg (attemptStep tt (env (rc - 1)))) := by
  intro fuel
  induction fuel with
  | zero => intro a le _ _; simp [classifyLoop]
  | succ f ih =>
    intro a le hsum htr
    have ha : a < rc := by omega
    have h0 := htr a (le_refl a) ha
    cases hs : attemptStep tt (env a) with
    | success t => rw [hs] at h0; simp [isTransient] at h0
    | failBreak m => rw [hs] at h0; simp [isTransient] at h0
    | continueNoSleep m =>
      have hrec := ih (a + 1) (some m) (by omega)
        (fun i h1 h2 => htr i (by omega) h2)
      simp only [classifyLoop, hs]
      rw [hrec]
      by_cases hf : f = 0
      · subst hf
        have hlast : rc - 1 = a := by omega
        simp [hlast, hs, stepMsg]
      · simp [hf]
    | failSleep m =>
      have hrec := ih (a + 1) (some m) (by omega)
        (fun i h1 h2 => htr i (by omega) h2)
      simp only [classifyLoop, hs]
      have hres : ∀ r : RunResult, ∀ b : Prop, ∀ inst : Decidable b,
          ((if b then RunResult.mk r.result r.attempts (2 ^ a :: r.sleeps) else r).result
            = r.result) := by
        intro r b inst
        split <;> rfl
      rw [hres]
      rw [hrec]
      by_cases hf : f = 0
      · subst hf
        have hlast : rc - 1 = a := by omega
        simp [hlast, hs, stepMsg]
      · simp [hf]

/-! ## Helper lemmas about the batch coordinator -/

theorem classify_single_index (apiKey timeoutText : String)
    (envFor : Nat → Nat → AttemptOutcome) (imageData : List Nat) (i : Nat) :
    (classify_single apiKey timeoutText envFor imageData i).index = i := by
  unfold classify_single
  split <;> rfl

theorem classify_batch_length (apiKey timeoutText : String)
    (envFor : Nat → Nat → AttemptOutcome) (imagesData : List (List Nat)) :
    (classify_batch apiKey timeoutText envFor imagesData).length
      = imagesData.length := by
  simp [classify_batch]

theorem classify_batch_getElem (apiKey timeoutText : String)
    (envFor : Nat → Nat → AttemptOutcome) (imagesData : List (List Nat))
    (i : Nat) (img : List Nat) (h : imagesData[i]? = some img) :
    (classify_batch apiKey timeoutText envFor imagesData)[i]?
      = some (classify_single apiKey timeoutText envFor img i) := by
  simp [classify_batch, List.getElem?_map, List.getElem?_enum, h]

theorem classify_batch_map_index (apiKey timeoutText : String)
    (envFor : Nat → Nat → AttemptOutcome) (imagesData : List (List Nat)) :
    (classify_batch apiKey timeoutText envFor imagesData).map BatchItem.index
      = List.range imagesData.length := by
  have hfun : (BatchItem.index ∘
      fun p : Nat × List Nat => classify_single apiKey timeoutText envFor p.2 p.1)
      = Prod.fst := by
    funext p
    exact classify_single_index apiKey timeoutText envFor p.2 p.1
  rw [classify_batch, List.map_map, hfun, List.enum_map_fst]

/-! ## Helper lemmas about the admission gate -/

theorem inflight_replicate (n : Nat) :
    inflight (List.replicate n TaskPhase.waiting) = 0 := by
  simp [inflight, List.countP_replicate]

theorem inflight_set_running {s : List TaskPhase} {i : Nat}
    (h : s[i]? = some TaskPhase.waiting) :
    inflight (s.set i TaskPhase.running) = inflight s + 1 := by
  obtain ⟨hlt, hval⟩ := List.getElem?_eq_some_iff.mp h
  unfold inflight
  rw [List.countP_set _ _ _ _ hlt, hval]
  simp

theorem inflight_set_finished {s : List TaskPhase} {i : Nat}
    (h : s[i]? = some TaskPhase.running) :
    inflight (s.set i TaskPhase.finished) = inflight s - 1 := by
  obtain ⟨hlt, hval⟩ := List.getElem?_eq_some_iff.mp h
  unfold inflight
  rw [List.countP_set _ _ _ _ hlt, hval]
  simp

/-! ## Claim theorems -/

/-- C1: the claim says every response with status in [400,499) fails
immediately with exactly one attempt and no retries.  The code instead
raises the 4xx error inside the `try` block, where the generic handler
only `break`s when the message contains the substring `"400"`, `"401"`
or `"403"` — contradicting the code's own comment `If it's a client
error (4xx), don't retry`.  Evaluated at a 404 response, the run makes
all 3 attempts with two backoff sleeps; a 401 response does make exactly
one attempt, as its message contains `"401"`. -/
theorem c1_client_error_retry_divergence :
    (classify_image "k" "30.0" (fun _ => .response 404 "Not Found" none)
        [] 50 (1 / 10 : ℚ) 3)
      = ⟨some (prepare_payload "" 50 (1 / 10 : ℚ)),
          .error "API error 404: Not Found", 3, [1, 2]⟩ ∧
    (classify_image "k" "30.0" (fun _ => .response 401 "Unauthorized" none)
        [] 50 (1 / 10 : ℚ) 3).attempts = 1 ∧
    (classify_image "k" "30.0" (fun _ => .response 401 "Unauthorized" none)
        [] 50 (1 / 10 : ℚ) 3).result = .error "API error 401: Unauthorized" :=
  ⟨rfl, rfl, rfl⟩

/-- C2: a 200 response whose body lacks the `choices` field or has an
empty `choices` list (or an empty-after-strip content) raises the generic
exception, which is recorded and retried like a transient failure — the
run sleeps `2^0 = 1` and makes a further attempt — except that a caught
exception whose stringified text contains `"400"`, `"401"` or `"403"`
aborts the loop with no further attempts; the `break` happens exactly
when the digit substring test succeeds. -/
theorem c2_malformed_result_retry_and_digit_short_circuit
    (key tt : String) (img : List Nat) (mt : Nat) (temp : ℚ) (hk : key ≠ "") :
    (∀ env rc text choices, (choices = none ∨ choices = some ([] : List String)) →
        env 0 = AttemptOutcome.response 200 text choices → 2 ≤ rc →
        attemptStep tt (env 0) = .failSleep "Invalid response format from API" ∧
        (classify_image key tt env img mt temp rc).sleeps.head? = some 1 ∧
        2 ≤ (classify_image key tt env img mt temp rc).attempts) ∧
    (∀ env rc text c rest,
        env 0 = AttemptOutcome.response 200 text (some (c :: rest)) →
        pyStrip c = "" → 2 ≤ rc →
        attemptStep tt (env 0) = .failSleep "Empty classification result" ∧
        (classify_image key tt env img mt temp rc).sleeps.head? = some 1 ∧
        2 ≤ (classify_image key tt env img mt temp rc).attempts) ∧
    (∀ env rc msg, attemptStep tt (env 0) = .failBreak msg → 1 ≤ rc →
        (classify_image key tt env img mt temp rc).result = .error msg ∧
        (classify_image key tt env img mt temp rc).attempts = 1) ∧
    (∀ msg, genericCatch msg = .failBreak msg ↔ hasClientDigits msg = true) := by
  refine ⟨?_, ?_, ?_, fun msg => genericCatch_eq_failBreak msg⟩
  · intro env rc text choices hch henv hrc
    have hstep : attemptStep tt (env 0)
        = .failSleep "Invalid response format from API" := by
      rw [henv]; rcases hch with rfl | rfl <;> rfl
    obtain ⟨f, rfl⟩ : ∃ f, rc = (f + 1) + 1 := ⟨rc - 2, by omega⟩
    refine ⟨hstep, ?_, ?_⟩
    · simp only [classify_image, if_neg hk, classifyLoop, hstep]
      rw [if_pos (show 0 < (f + 1) + 1 - 1 by omega)]
      simp
    · simp only [classify_image, if_neg hk, classifyLoop, hstep]
      rw [if_pos (show 0 < (f + 1) + 1 - 1 by omega)]
      exact loop_attempts_ge_succ tt env ((f + 1) + 1) (f + 1) 1
        (some "Invalid response format from API") (by omega)
  · intro env rc text c rest henv hc hrc
    have hstep : attemptStep tt (env 0)
        = .failSleep "Empty classification result" := by
      rw [henv]
      show (if pyStrip c = "" then genericCatch "Empty classification result"
          else AttemptStep.success (pyStrip c)) = _
      rw [if_pos hc]
      rfl
    obtain ⟨f, rfl⟩ : ∃ f, rc = (f + 1) + 1 := ⟨rc - 2, by omega⟩
    refine ⟨hstep, ?_, ?_⟩
    · simp only [classify_image, if_neg hk, classifyLoop, hstep]
      rw [if_pos (show 0 < (f + 1) + 1 - 1 by omega)]
      simp
    · simp only [classify_image, if_neg hk, classifyLoop, hstep]
      rw [if_pos (show 0 < (f + 1) + 1 - 1 by omega)]
      exact loop_attempts_ge_succ tt env ((f + 1) + 1) (f + 1) 1
        (some "Empty classification result") (by omega)
  · intro env rc msg hstep hrc
    obtain ⟨f, rfl⟩ : ∃ f, rc = f + 1 := ⟨rc - 1, by omega⟩
    constructor
    · simp [classify_image, hk, classifyLoop, hstep]
    · simp [classify_image, hk, classifyLoop, hstep]

/-- Witness for C2 at concrete inputs: a missing `choices` field and an
empty-after-strip content are both retried with a 1s first backoff; a
401 response's message triggers the digit short-circuit after exactly
one attempt. -/
theorem c2_witness :
    (classify_image "k" "30.0" (fun _ => .response 200 "body" none)
        [] 50 (1 / 10 : ℚ) 3).sleeps.head? = some 1 ∧
    2 ≤ (classify_image "k" "30.0" (fun _ => .response 200 "body" none)
        [] 50 (1 / 10 : ℚ) 3).attempts ∧
    (classify_image "k" "30.0" (fun _ => .response 200 "b" (some [" "]))
        [] 50 (1 / 10 : ℚ) 3).sleeps.head? = some 1 ∧
    (classify_image "k" "30.0" (fun _ => .response 401 "Unauthorized" none)
        [] 50 (1 / 10 : ℚ) 3).result = .error "API error 401: Unauthorized" ∧
    (classify_image "k" "30.0" (fun _ => .response 401 "Unauthorized" none)
        [] 50 (1 / 10 : ℚ) 3).attempts = 1 ∧
    (genericCatch "API error 403: Forbidden" = .failBreak "API error 403: Forbidden"
        ↔ hasClientDigits "API error 403: Forbidden" = true) := by
  have h := c2_malformed_result_retry_and_digit_short_circuit
    "k" "30.0" [] 50 (1 / 10 : ℚ) (by decide)
  refine ⟨?_, ?_, ?_, ?_, ?_, h.2.2.2 "API error 403: Forbidden"⟩
  · exact (h.1 (fun _ => .response 200 "body" none) 3 "body" none
      (Or.inl rfl) rfl (by omega)).2.1
  · exact (h.1 (fun _ => .response 200 "body" none) 3 "body" none
      (Or.inl rfl) rfl (by omega)).2.2
  · exact (h.2.1 (fun _ => .response 200 "b" (some [" "])) 3 "b" " " []
      rfl rfl (by omega)).2.1
  · exact (h.2.2.1 (fun _ => .response 401 "Unauthorized" none) 3
      "API error 401: Unauthorized" rfl (by omega)).1
  · exact (h.2.2.1 (fun _ => .response 401 "Unauthorized" none) 3
      "API error 401: Unauthorized" rfl (by omega)).2

/-- C3: the claim says two 503 responses followed by a 200 succeed on the
third attempt with backoff waits of 1s then 2s.  The code's 5xx branch
executes `continue`, which skips the backoff sleep at the bottom of the
loop body, so that run performs no sleep at all — while an exception
path such as a timeout does back off 1s then 2s, showing the sleep code
is reachable but bypassed by `continue`. -/
theorem c3_backoff_skipped_divergence :
    (classify_image "k" "30.0"
        (fun n => if n < 2 then .response 503 "Service Unavailable" none
                  else .response 200 "" (some ["a cat"])) [] 50 (1 / 10 : ℚ) 3)
      = ⟨some (prepare_payload "" 50 (1 / 10 : ℚ)), .ok "a cat", 3, []⟩ ∧
    (classify_image "k" "30.0" (fun _ => .timeout) [] 50 (1 / 10 : ℚ) 3).sleeps
      = [1, 2] :=
  ⟨rfl, rfl⟩

/-- C4: when every attempt's step is transient (recorded, not breaking),
the error surfaced after the retry limit is exhausted is the message
recorded by the most recent (last) attempt; the generic
"failed after all retries" message is surfaced only when no attempt ever
ran (retry limit 0), i.e. when no failure was recorded. -/
theorem c4_last_recorded_failure_surfaced (key tt : String)
    (env : Nat → AttemptOutcome) (img : List Nat) (mt : Nat) (temp : ℚ)
    (rc : Nat) (hk : key ≠ "") (h1 : 1 ≤ rc)
    (htr : ∀ i, i < rc → isTransient (attemptStep tt (env i)) = true) :
    (classify_image key tt env img mt temp rc).result
        = .error (stepMsg (attemptStep tt (env (rc - 1)))) ∧
    (classify_image key tt env img mt temp 0).result = .error exhaustedMsg := by
  constructor
  · simp only [classify_image, if_neg hk]
    rw [loop_all_transient tt env rc rc 0 none (by omega) (fun i _ h2 => htr i h2)]
    rw [if_neg (show ¬rc = 0 by omega)]
  · simp [classify_image, hk, classifyLoop]

/-- Witness for C4: two timeouts with `retry_count = 2` surface the
timeout message, and `retry_count = 0` surfaces the generic message. -/
theorem c4_witness :
    (classify_image "k" "30.0" (fun _ => .timeout) [] 50 (1 / 10 : ℚ) 2).result
        = .error "Request timeout after 30.0s" ∧
    (classify_image "k" "30.0" (fun _ => .timeout) [] 50 (1 / 10 : ℚ) 0).result
        = .error "Classification failed after all retries" := by
  have h := c4_last_recorded_failure_surfaced "k" "30.0" (fun _ => .timeout)
    [] 50 (1 / 10 : ℚ) 2 (by decide) (by omega) (fun i _ => rfl)
  exact ⟨h.1, h.2⟩

/-- C5: for every input sequence of images, `classify_batch` returns
exactly one entry per input index — the result list has the input's
length, its `index` fields are exactly `0, 1, ..., N-1` in order of task
creation (which `asyncio.gather` preserves regardless of completion
order) — and the entry at position `i` is the outcome of classifying the
image at original input position `i`. -/
theorem c5_batch_index_association (key tt : String)
    (envFor : Nat → Nat → AttemptOutcome) (imagesData : List (List Nat)) :
    (classify_batch key tt envFor imagesData).length = imagesData.length ∧
    (classify_batch key tt envFor imagesData).map BatchItem.index
        = List.range imagesData.length ∧
    ∀ i img, imagesData[i]? = some img →
      (classify_batch key tt envFor imagesData)[i]?
        = some (classify_single key tt envFor img i) :=
  ⟨classify_batch_length key tt envFor imagesData,
    classify_batch_map_index key tt envFor imagesData,
    fun i img h => classify_batch_getElem key tt envFor imagesData i img h⟩

/-- Witness for C5: in a two-image batch the entry at position 1 is the
outcome of classifying the second image, tagged with index 1. -/
theorem c5_witness :
    (classify_batch "k" "30.0" (fun _ _ => .timeout) [[1], [2]])[1]?
      = some (classify_single "k" "30.0" (fun _ _ => .timeout) [2] 1) :=
  (c5_batch_index_association "k" "30.0" (fun _ _ => .timeout)
    [[1], [2]]).2.2 1 [2] rfl

/-- C6: every per-item classification failure — whatever message the
exhausted retry loop raised — is caught by `classify_single` and turned
into a failure record for that item's index, and the batch call always
returns a full result list of the input's length (no per-item error
escapes to abort siblings or the batch). -/
theorem c6_batch_failure_isolation (key tt : String)
    (envFor : Nat → Nat → AttemptOutcome) (imagesData : List (List Nat)) :
    (classify_batch key tt envFor imagesData).length = imagesData.length ∧
    ∀ i img e, imagesData[i]? = some img →
      (classify_image key tt (envFor i) img 50 (1 / 10 : ℚ) 3).result = .error e →
      (classify_batch key tt envFor imagesData)[i]?
        = some ⟨i, false, none, some e⟩ := by
  refine ⟨classify_batch_length key tt envFor imagesData, ?_⟩
  intro i img e himg herr
  rw [classify_batch_getElem key tt envFor imagesData i img himg]
  unfold classify_single
  rw [herr]

/-- Witness for C6: a single-image batch whose every attempt times out
yields a failure record carrying the timeout message at index 0. -/
theorem c6_witness :
    (classify_batch "k" "30.0" (fun _ _ => .timeout) [[1]])[0]?
      = some ⟨0, false, none, some "Request timeout after 30.0s"⟩ :=
  (c6_batch_failure_isolation "k" "30.0" (fun _ _ => .timeout) [[1]]).2
    0 [1] "Request timeout after 30.0s" rfl rfl

/-- C7: under the admission-gate discipline of
`asyncio.Semaphore(max_concurrent)` — a task acquires a slot before its
classification call starts, only when fewer than `k` calls are in
flight, and releases it unconditionally when the call ends, on success
or failure alike — every state reachable from the start of a batch has
at most `k` calls simultaneously in flight. -/
theorem c7_concurrency_cap (k : Nat) (s : List TaskPhase)
    (h : SemReachable k s) : inflight s ≤ k := by
  induction h with
  | init n => rw [inflight_replicate]; exact Nat.zero_le k
  | step _ hstep ih =>
    cases hstep with
    | acquire i hw hlt => rw [inflight_set_running hw]; omega
    | release i hr => rw [inflight_set_finished hr]; omega

/-- Witness for C7: with capacity 1 and two tasks, the state after the
first task acquires the gate is reachable and within the cap. -/
theorem c7_witness :
    inflight [TaskPhase.running, TaskPhase.waiting] ≤ 1 :=
  c7_concurrency_cap 1 ((List.replicate 2 TaskPhase.waiting).set 0 TaskPhase.running)
    (SemReachable.step (SemReachable.init 2)
      (SemStep.acquire (List.replicate 2 TaskPhase.waiting) 0 rfl (by decide)))

/-- C8: on a 200 response with a well-formed body, `classify_image`
returns the first candidate's content with surrounding whitespace
stripped, in a single attempt; an empty-after-strip content is instead
treated as a recorded (retried) failure, and every successful return
value of any run is non-empty. -/
theorem c8_success_trimmed_nonempty (key tt : String)
    (env : Nat → AttemptOutcome) (img : List Nat) (mt : Nat) (temp : ℚ)
    (rc : Nat) (text c : String) (rest : List String)
    (hk : key ≠ "") (h1 : 1 ≤ rc)
    (henv : env 0 = AttemptOutcome.response 200 text (some (c :: rest))) :
    (pyStrip c ≠ "" →
        (classify_image key tt env img mt temp rc).result = .ok (pyStrip c) ∧
        (classify_image key tt env img mt temp rc).attempts = 1) ∧
    (pyStrip c = "" →
        attemptStep tt (env 0) = .failSleep "Empty classification result") ∧
    (∀ s, (classify_image key tt env img mt temp rc).result = .ok s → s ≠ "") := by
  refine ⟨?_, ?_, ?_⟩
  · intro hc
    have hstep : attemptStep tt (env 0) = .success (pyStrip c) := by
      rw [henv]
      show (if pyStrip c = "" then genericCatch "Empty classification result"
          else AttemptStep.success (pyStrip c)) = _
      rw [if_neg hc]
    obtain ⟨f, rfl⟩ : ∃ f, rc = f + 1 := ⟨rc - 1, by omega⟩
    constructor
    · simp [classify_image, hk, classifyLoop, hstep]
    · simp [classify_image, hk, classifyLoop, hstep]
  · intro hc
    rw [henv]
    show (if pyStrip c = "" then genericCatch "Empty classification result"
        else AttemptStep.success (pyStrip c)) = _
    rw [if_pos hc]
    rfl
  · intro s hs
    simp only [classify_image, if_neg hk] at hs
    exact loop_ok_ne_empty tt env rc rc 0 none s hs

/-- Witness for C8: a 200 response whose first candidate content is
`"  a cat  "` returns `"a cat"` in one attempt, and that value is
non-empty. -/
theorem c8_witness :
    (classify_image "k" "30.0"
        (fun _ => .response 200 "raw" (some ["  a cat  "])) [] 50 (1 / 10 : ℚ) 3).result
      = .ok "a cat" ∧
    (classify_image "k" "30.0"
        (fun _ => .response 200 "raw" (some ["  a cat  "])) [] 50 (1 / 10 : ℚ) 3).attempts
      = 1 ∧
    "a cat" ≠ "" := by
  have h := c8_success_trimmed_nonempty "k" "30.0"
    (fun _ => .response 200 "raw" (some ["  a cat  "])) [] 50 (1 / 10 : ℚ) 3
    "raw" "  a cat  " [] (by decide) (by omega) rfl
  have h2 := h.1 (by decide)
  exact ⟨h2.1, h2.2, h.2.2 "a cat" h2.1⟩

/-- C9: with no API key configured, `classify_image` raises the
configuration error immediately: no payload is built (so the image is
never encoded and no request is sent) and zero attempts and zero
backoff sleeps occur, for every image, environment and retry limit. -/
theorem c9_missing_key_immediate_failure (tt : String)
    (env : Nat → AttemptOutcome) (img : List Nat) (mt : Nat) (temp : ℚ)
    (rc : Nat) :
    classify_image "" tt env img mt temp rc
      = ⟨none, .error "OpenRouter API key not configured", 0, []⟩ := rfl

/-- C10: `classify_image` never validates `image_data`: for every byte
list, including the empty one, it base64-encodes the bytes into the
payload and proceeds to the request loop (at least one attempt when the
retry limit is positive), and the run's outcome and attempt count are
identical to those for the empty blob — emptiness never causes a
distinct early failure. -/
theorem c10_no_image_validation (key tt : String)
    (env : Nat → AttemptOutcome) (img : List Nat) (mt : Nat) (temp : ℚ)
    (rc : Nat) (hk : key ≠ "") (h1 : 1 ≤ rc) :
    (classify_image key tt env img mt temp rc).payload
        = some (prepare_payload (b64encodeStr img) mt temp) ∧
    1 ≤ (classify_image key tt env img mt temp rc).attempts ∧
    (classify_image key tt env img mt temp rc).result
        = (classify_image key tt env [] mt temp rc).result ∧
    (classify_image key tt env img mt temp rc).attempts
        = (classify_image key tt env [] mt temp rc).attempts := by
  refine ⟨?_, ?_, ?_, ?_⟩
  · simp [classify_image, hk]
  · simp only [classify_image, if_neg hk]
    exact loop_attempts_ge_succ tt env rc rc 0 none (by omega)
  · simp [classify_image, hk]
  · simp [classify_image, hk]

/-- Witness for C10: a non-empty and an empty blob; the payload embeds
the base64 encoding and the run proceeds to the attempt loop. -/
theorem c10_witness :
    (classify_image "k" "30.0" (fun _ => .response 200 "" (some ["dog"]))
        [1, 2] 50 (1 / 10 : ℚ) 3).payload
      = some (prepare_payload (b64encodeStr [1, 2]) 50 (1 / 10 : ℚ)) ∧
    1 ≤ (classify_image "k" "30.0" (fun _ => .response 200 "" (some ["dog"]))
        [1, 2] 50 (1 / 10 : ℚ) 3).attempts ∧
    (classify_image "k" "30.0" (fun _ => .response 200 "" (some ["dog"]))
        [1, 2] 50 (1 / 10 : ℚ) 3).result
      = (classify_image "k" "30.0" (fun _ => .response 200 "" (some ["dog"]))
        [] 50 (1 / 10 : ℚ) 3).result ∧
    (classify_image "k" "30.0" (fun _ => .response 200 "" (some ["dog"]))
        [1, 2] 50 (1 / 10 : ℚ) 3).attempts
      = (classify_image "k" "30.0" (fun _ => .response 200 "" (some ["dog"]))
        [] 50 (1 / 10 : ℚ) 3).attempts :=
  c10_no_image_validation "k" "30.0" (fun _ => .response 200 "" (some ["dog"]))
    [1, 2] 50 (1 / 10 : ℚ) 3 (by decide) (by omega)

end ImageDetection
